import Mathlib

/-!
Shallow embedding of the nestga Home Assistant integration's Nest client
(src/custom_components/nestga), covering the pieces the specification talks
about: the dynamic value model of the Python code, the FAN_MAP dictionary and
the fan setter, temperature rounding and the target-temperature setter, the
wrapper-object merge (NestBase.set), the bucket table and the update loop of
Nest.update, the ETA methods of Structure, and the three-step auth sequence of
ga_auth.initialize.  Times are modelled as integer timestamps in seconds;
HTTP responses are modelled by the fields the code actually reads.
-/

namespace Nestga

/-- Dynamic Python values as they occur in the client: None, bool, int, str.
Dictionaries carried by wrapper objects are modelled extensionally below. -/
inductive PVal where
  | pnone
  | pbool (b : Bool)
  | pint (n : Int)
  | pstr (s : String)
deriving DecidableEq, BEq, Repr

/-- Numeric view used by Python equality: True == 1 and False == 0. -/
def numVal : PVal → Option Int
  | .pbool b => some (if b then 1 else 0)
  | .pint n => some n
  | _ => none

/-- Python `==` on the value fragment used as dictionary keys. -/
def pyEq (a b : PVal) : Bool :=
  match numVal a, numVal b with
  | some m, some n => m == n
  | _, _ =>
    match a, b with
    | .pstr s, .pstr t => s == t
    | .pnone, .pnone => true
    | _, _ => false

/-- Python dict assignment `d[k] = v`: updates the value of an existing key
equal (by `==`) to `k`, otherwise appends a new entry. -/
def dictSet (d : List (PVal × PVal)) (k v : PVal) : List (PVal × PVal) :=
  if d.any (fun kv => pyEq kv.1 k) then
    d.map (fun kv => if pyEq kv.1 k then (kv.1, v) else kv)
  else d ++ [(k, v)]

/-- A Python dict literal: successive insertion of the written pairs,
so that later duplicate keys (such as `True` after `1`) overwrite. -/
def dictLit (pairs : List (PVal × PVal)) : List (PVal × PVal) :=
  pairs.foldl (fun d kv => dictSet d kv.1 kv.2) []

/-- Python `d.get(k, default)`. -/
def dictGet (d : List (PVal × PVal)) (k default : PVal) : PVal :=
  match d.find? (fun kv => pyEq kv.1 k) with
  | some kv => kv.2
  | none => default

/-- The FAN_MAP literal of nest.py (lines 33-41), written exactly in source
order; the keys `1`/`True` and `0`/`False` collide under Python equality. -/
def FAN_MAP : List (PVal × PVal) :=
  dictLit
    [(.pstr "auto on", .pbool false),
     (.pstr "on", .pbool true),
     (.pstr "auto", .pbool false),
     (.pstr "1", .pbool true),
     (.pstr "0", .pbool false),
     (.pint 1, .pbool true),
     (.pint 0, .pbool false),
     (.pbool true, .pbool true),
     (.pbool false, .pbool false)]

/-- Python exceptions that the client can raise or observe. -/
inductive PyErr where
  | valueError
  | keyError
  | typeError
  | requestException
  | jsonDecodeError
deriving DecidableEq, BEq, Repr

/-- A POST issued by a mutating setter: the sub-path and a flat payload. -/
structure WriteReq where
  path : String
  payload : List (String × PVal)
deriving DecidableEq, BEq, Repr

/-- Thermostat.fan setter (nest.py lines 394-400): looks the value up in
FAN_MAP with default False and raises ValueError only if the result is None. -/
def fanSetter (value : PVal) : Except PyErr WriteReq :=
  let mapped_value := dictGet FAN_MAP value (.pbool false)
  if mapped_value = .pnone then .error .valueError
  else .ok { path := "devices/thermostats", payload := [("fan_timer_active", mapped_value)] }

/-- Python 3 `round` on a rational: round half to even (banker's rounding). -/
def pyRound (q : ℚ) : Int :=
  let f : Int := ⌊q⌋
  let r : ℚ := q - f
  if r < 1 / 2 then f
  else if 1 / 2 < r then f + 1
  else if f % 2 = 0 then f else f + 1

/-- Thermostat._round_temp (nest.py lines 551-556): Celsius rounds to the
nearest half degree, any other scale to the nearest whole degree. -/
def round_temp (temperature_scale : PVal) (temp : ℚ) : ℚ :=
  if temperature_scale = .pstr "C" then (pyRound (temp * 2) : ℚ) / 2
  else (pyRound temp : ℚ)

/-- Wrapper-object data dictionaries, modelled extensionally: the keys the
code reads are strings and a missing key is `none`. -/
abbrev PDict : Type := String → Option PVal

/-- Python `dict.update` (shallow key overwrite) of payload `p` into `d`. -/
def dict_update (d p : PDict) : PDict :=
  fun k => match p k with
  | some v => some v
  | none => d k

/-- Wrapper-class tags in the order the classes are defined in nest.py. -/
inductive ClassTag where
  | whereCls
  | deviceCls
  | structureCls
  | activityZoneCls
  | cameraEventCls
  | thermostatCls
  | smokeCoAlarmCls
  | cameraCls
deriving DecidableEq, BEq, Repr

/-- State of a NestBase wrapper object: its id (set once in __init__), the
class it was constructed as, and its raw data dictionary. -/
structure NestObj where
  id : String
  cls : ClassTag
  data : PDict

/-- NestBase.set (nest.py lines 220-221): in-place shallow merge. -/
def nestSet (o : NestObj) (p : PDict) : NestObj :=
  { o with data := dict_update o.data p }

/-- NestBase.serial (nest.py lines 238-240): returns the stored id. -/
def serial (o : NestObj) : String :=
  o.id

/-- Modelled from the spec: the spec sentence says all fields other than the
identity are "replaced wholesale on each successful update cycle"; this
definition follows those words (the whole data dictionary becomes the payload)
and is compared against `nestSet`, which is translated from the source. -/
def setWholesale (o : NestObj) (p : PDict) : NestObj :=
  { o with data := p }

/-- The single target-temperature value or the heat-cool low/high pair. -/
inductive TargetValue where
  | single (t : ℚ)
  | pair (low high : ℚ)

/-- Thermostat.target setter (nest.py lines 613-627): rounds each written
value with _round_temp; subscripting a scalar, or rounding a tuple, in the
mismatched branch raises TypeError. -/
def targetSet (o : NestObj) (v : TargetValue) : Except PyErr (List (String × ℚ)) :=
  if (o.data "target_temperature_type").getD .pnone = .pstr "heat-cool" then
    match v with
    | .pair low high =>
        .ok [("target_temperature_low", round_temp ((o.data "temperature_scale").getD .pnone) low),
             ("target_temperature_high", round_temp ((o.data "temperature_scale").getD .pnone) high)]
    | .single _ => .error .typeError
  else
    match v with
    | .single t =>
        .ok [("target_temperature", round_temp ((o.data "temperature_scale").getD .pnone) t)]
    | .pair _ _ => .error .typeError

/-- Python `str.startswith`, on the underlying character lists. -/
def strStartsWith (s p : String) : Bool :=
  p.data.isPrefixOf s.data

/-- Replace every (non-overlapping, left-to-right) occurrence of `pat` in `s`
by `rep`; the fuel argument bounds the scan by the remaining length. -/
def replaceAux (pat rep : List Char) : Nat → List Char → List Char
  | _, [] => []
  | 0, s => s
  | Nat.succ fuel, c :: cs =>
    if pat.isPrefixOf (c :: cs) then
      rep ++ replaceAux pat rep fuel ((c :: cs).drop pat.length)
    else
      c :: replaceAux pat rep fuel cs

/-- Python `str.replace` for a nonempty pattern; with an empty pattern Python
would interleave `rep` around every character. -/
def strReplace (s pat rep : String) : String :=
  if pat.data = [] then
    ⟨rep.data ++ s.data.foldr (fun c acc => c :: (rep.data ++ acc)) []⟩
  else
    ⟨replaceAux pat.data rep.data s.data.length s.data⟩

/-- Bucket-type constants of nest.py (lines 18-24). -/
def STRUCTURE : String := "structure"

def THERMOSTAT : String := "thermostat"

def CAMERA : String := "camera"

def WHERE : String := "where"

/-- The BUCKETS table of nest.py (lines 52-62) in source order: a bucket-key
name paired with the wrapper type it decodes to. -/
def BUCKETS : List (String × String) :=
  [("link", THERMOSTAT),
   ("device", THERMOSTAT),
   ("schedule", THERMOSTAT),
   ("shared", THERMOSTAT),
   ("where", WHERE),
   ("quartz", CAMERA),
   ("structure", STRUCTURE)]

/-- is_handler_for of each wrapper class: Where, Structure, Thermostat and
Camera recognise their type string; Device, ActivityZone and CameraEvent
return False, and SmokeCoAlarm inherits Device's False. -/
def is_handler_for (c : ClassTag) (ty : String) : Bool :=
  match c with
  | .whereCls => ty == WHERE
  | .deviceCls => false
  | .structureCls => ty == STRUCTURE
  | .activityZoneCls => false
  | .cameraEventCls => false
  | .thermostatCls => ty == THERMOSTAT
  | .smokeCoAlarmCls => false
  | .cameraCls => ty == CAMERA

/-- Direct subclasses of NestBase in definition order (nest.py). -/
def nestBaseSubclasses : List ClassTag :=
  [.whereCls, .deviceCls, .structureCls, .activityZoneCls, .cameraEventCls]

/-- Direct subclasses of Device in definition order (nest.py). -/
def deviceSubclasses : List ClassTag :=
  [.thermostatCls, .smokeCoAlarmCls, .cameraCls]

/-- nest_object (nest.py lines 70-81): scan NestBase subclasses, then Device
subclasses, for the first handler of the type; none found raises ValueError. -/
def nest_object (ty : String) : Option ClassTag :=
  match nestBaseSubclasses.find? (fun c => is_handler_for c ty) with
  | some c => some c
  | none => deviceSubclasses.find? (fun c => is_handler_for c ty)

/-- Storage (nest.py lines 187-208): a mapping keyed by (type, id). -/
abbrev StorageT : Type := List ((String × String) × NestObj)

/-- Storage.get with an id: the stored item, or None when absent. -/
def storageGet (st : StorageT) (ty udid : String) : Option NestObj :=
  (st.find? (fun e => e.1.1 == ty && e.1.2 == udid)).map (fun e => e.2)

/-- Storage.add: `self._items[type][id] = item`, an upsert. -/
def storageAdd (st : StorageT) (ty udid : String) (o : NestObj) : StorageT :=
  if (st.find? (fun e => e.1.1 == ty && e.1.2 == udid)).isSome then
    st.map (fun e => if e.1.1 == ty && e.1.2 == udid then (e.1, o) else e)
  else st ++ [((ty, udid), o)]

/-- A received bucket: its object_key and its value payload. -/
structure Bucket where
  object_key : String
  value : PDict

/-- One iteration of the inner loop of Nest.update (nest.py lines 139-149)
for a received bucket against one BUCKETS entry: on a key match, merge into
the known wrapper or create a new one (ValueError if no class handles it). -/
def bucketStep (rb : Bucket) (st : StorageT) (bk : String × String) :
    StorageT × Option PyErr :=
  if strStartsWith rb.object_key (bk.1 ++ ".") then
    let udid := strReplace rb.object_key (bk.1 ++ ".") ""
    let item_type := bk.2
    match storageGet st item_type udid with
    | some item => (storageAdd st item_type udid (nestSet item rb.value), none)
    | none =>
      match nest_object item_type with
      | some cls => (storageAdd st item_type udid ⟨udid, cls, rb.value⟩, none)
      | none => (st, some .valueError)
  else (st, none)

/-- The inner loop over all BUCKETS entries for one received bucket (the
source has no break, so every matching entry is processed). -/
def bucketScan (rb : Bucket) : StorageT → List (String × String) → StorageT × Option PyErr
  | st, [] => (st, none)
  | st, bk :: rest =>
    match bucketStep rb st bk with
    | (st2, some e) => (st2, some e)
    | (st2, none) => bucketScan rb st2 rest

/-- The outer loop of Nest.update over the received buckets; an uncaught
error aborts the loop with the storage mutated so far. -/
def runBuckets : StorageT → List Bucket → StorageT × Option PyErr
  | st, [] => (st, none)
  | st, rb :: rest =>
    match bucketScan rb st BUCKETS with
    | (st2, some e) => (st2, some e)
    | (st2, none) => runBuckets st2 rest

/-- The app_launch response dictionary; `updated_buckets` is `none` when the
JSON decoded but lacks that key (subscripting then raises KeyError). -/
structure AppLaunchResp where
  updated_buckets : Option (List Bucket)

/-- Outcome of the HTTP POST inside Nest.update: a transport error, a body
that fails JSON decoding, or a decoded response. -/
inductive PostOutcome where
  | netError
  | badJson
  | jsonOk (resp : AppLaunchResp)

/-- Nest.post (nest.py lines 168-173) with _handle_response (175-179): a
RequestException is caught and logged and the method returns None, and a
JSONDecodeError is caught and logged and the method returns None. -/
def post : PostOutcome → Option AppLaunchResp
  | .netError => none
  | .badJson => none
  | .jsonOk r => some r

/-- Client state relevant to Nest.update: `_last_update` (a utcnow timestamp,
seconds) and the bucket storage. -/
structure NestState where
  last_update : Option Int
  storage : StorageT

/-- Nest._should_update (nest.py lines 119-120): compares `_last_update`
against `datetime.datetime.now() - 30 seconds`, i.e. against the local clock,
with a strict less-than. -/
def should_update (localNow : Int) (st : NestState) : Bool :=
  match st.last_update with
  | none => true
  | some t => decide (t < localNow - 30)

/-- Nest.update (nest.py lines 122-159).  `localNow` is the value of
`datetime.datetime.now()` and `utcNow` of `datetime.datetime.utcnow()` at the
call, as integer timestamps.  Returns the outcome, the new state, and the
number of network polls performed (0 or 1).  A None response from post makes
`response["updated_buckets"]` raise TypeError, which neither except clause
catches; a missing key raises KeyError, which is caught, logged and
re-raised.  On success `_last_update` is set from utcnow. -/
def nestUpdate (st : NestState) (localNow utcNow : Int) (env : PostOutcome) :
    Except PyErr Unit × NestState × Nat :=
  if should_update localNow st = false then (.ok (), st, 0)
  else
    match post env with
    | none => (.error .typeError, st, 1)
    | some resp =>
      match resp.updated_buckets with
      | none => (.error .keyError, st, 1)
      | some buckets =>
        match runBuckets st.storage buckets with
        | (st2, some e) => (.error e, { st with storage := st2 }, 1)
        | (st2, none) => (.ok (), { last_update := some utcNow, storage := st2 }, 1)

/-- NestSensorDevice.update, the cited update() call site
(src/custom_components/nestga/init .py lines 393-394): its whole body is the
single statement `self._nest.update()`: no exception handling, no
re-authentication.  The final component counts auth sequences run (always 0)
next to the number of update polls. -/
def sensorDeviceUpdate (st : NestState) (localNow utcNow : Int) (env : PostOutcome) :
    Except PyErr Unit × NestState × Nat × Nat :=
  let r := nestUpdate st localNow utcNow env
  (r.1, r.2.1, r.2.2, 0)

/-- Structure.num_thermostats (nest.py lines 1390-1395): the body that counted
thermostats is commented out and the property returns the literal 0. -/
def num_thermostats (_s : NestObj) : Nat := 0

/-- The eta dictionary POSTed by Structure._set_eta. -/
structure EtaWrite where
  trip_id : PVal
  estimated_arrival_window_begin : PVal
  estimated_arrival_window_end : PVal
deriving DecidableEq, BEq, Repr

/-- datetime.isoformat, modelled as an injective rendering of the timestamp;
the ETA claims do not depend on the concrete format. -/
def isoformat (t : Int) : String := toString t

/-- Structure._set_eta (nest.py lines 1452-1463): raises ValueError when
num_thermostats is 0, then when trip_id is None, else issues the eta write. -/
def set_eta_raw (s : NestObj) (trip_id : PVal) (eta_begin eta_end : PVal) :
    Except PyErr EtaWrite :=
  if num_thermostats s = 0 then .error .valueError
  else if trip_id = .pnone then .error .valueError
  else .ok ⟨trip_id, eta_begin, eta_end⟩

/-- Structure.set_eta (nest.py lines 1465-1477): raises ValueError when
eta_begin is None, defaults eta_end to eta_begin plus one minute, and calls
_set_eta with both rendered by isoformat. -/
def set_eta (s : NestObj) (trip_id : PVal) (eta_begin : Option Int)
    (eta_end : Option Int) : Except PyErr EtaWrite :=
  match eta_begin with
  | none => .error .valueError
  | some b =>
    let e := match eta_end with
      | none => b + 60
      | some x => x
    set_eta_raw s trip_id (.pstr (isoformat b)) (.pstr (isoformat e))

/-- Structure.cancel_eta (nest.py lines 1479-1484): re-sends the trip id with
a zero begin and the current utc time as end. -/
def cancel_eta (s : NestObj) (trip_id : PVal) (utcNow : Int) : Except PyErr EtaWrite :=
  set_eta_raw s trip_id (.pint 0) (.pstr (isoformat utcNow))

/-- Response to the issue-token GET of ga_auth.get_google_access_token:
transport error, undecodable JSON, or a body whose `access_token` field may
be missing. -/
inductive TokenResp where
  | reqError
  | badJson
  | jsonBody (access_token : Option String)

/-- Response to the issue_jwt POST of ga_auth.get_jwt. -/
inductive JwtResp where
  | reqError
  | badJson
  | jsonBody (jwt : Option String)

/-- The `urls` sub-dictionary of the session response; `transport_url` may be
missing inside it. -/
structure SessionUrls where
  transport_url : Option String

/-- Response to the session GET of ga_auth.get_token. -/
inductive SessionResp where
  | reqError
  | badJson
  | jsonBody (urls : Option SessionUrls) (userid : Option String)

/-- ga_auth.get_google_access_token (ga_auth.py lines 29-38): no try/except,
so a transport error or JSON failure propagates; a decoded body without
`access_token` raises KeyError. -/
def get_google_access_token (r : TokenResp) : Except PyErr String :=
  match r with
  | .reqError => .error .requestException
  | .badJson => .error .jsonDecodeError
  | .jsonBody access_token =>
    match access_token with
    | some t => .ok t
    | none => .error .keyError

/-- ga_auth.get_jwt (ga_auth.py lines 40-60): same failure behaviour on the
`jwt` field. -/
def get_jwt (r : JwtResp) (_google_access_token : String) : Except PyErr String :=
  match r with
  | .reqError => .error .requestException
  | .badJson => .error .jsonDecodeError
  | .jsonBody jwt =>
    match jwt with
    | some j => .ok j
    | none => .error .keyError

/-- ga_auth.get_token (ga_auth.py lines 62-75): subscripts `urls`, then
`transport_url` inside it, then `userid`, in that order. -/
def get_token (r : SessionResp) (_access_token : String) :
    Except PyErr (String × String) :=
  match r with
  | .reqError => .error .requestException
  | .badJson => .error .jsonDecodeError
  | .jsonBody urls userid =>
    match urls with
    | none => .error .keyError
    | some u =>
      match u.transport_url with
      | none => .error .keyError
      | some tu =>
        match userid with
        | none => .error .keyError
        | some uid => .ok (tu, uid)

/-- The shared session fields written by ga_auth.initialize. -/
structure SessionData where
  jwt : Option String
  transport_url : Option String
  user_id : Option String
deriving DecidableEq, BEq, Repr

/-- The three HTTP responses seen by one run of the auth sequence. -/
structure AuthEnv where
  issueTokenResp : TokenResp
  jwtResp : JwtResp
  sessionResp : SessionResp

/-- ga_auth.initialize (ga_auth.py lines 19-27): runs the three steps in
sequence and only after all three succeed writes jwt, transport_url and
user_id into the shared session state; an exception from any step propagates
before any write happens. -/
def initializeAuth (env : AuthEnv) (s : SessionData) :
    Except PyErr Unit × SessionData :=
  match get_google_access_token env.issueTokenResp with
  | .error e => (.error e, s)
  | .ok google_access_token =>
    match get_jwt env.jwtResp google_access_token with
    | .error e => (.error e, s)
    | .ok jwt =>
      match get_token env.sessionResp jwt with
      | .error e => (.error e, s)
      | .ok tu =>
        (.ok (), { jwt := some jwt, transport_url := some tu.1, user_id := some tu.2 })

/-- True exactly on the re-raised network exception; used to state that
Nest.update can never surface one. -/
def isRequestExc : Except PyErr Unit → Bool
  | .error .requestException => true
  | _ => false

/-- True exactly on bool values; used to state that every value of FAN_MAP
is a bool. -/
def isPBool : PVal → Bool
  | .pbool _ => true
  | _ => false

/-- Concrete wrapper object used to exhibit that set() is a merge. -/
def obj9 : NestObj :=
  ⟨"s1", .structureCls, fun k => if k = "a" then some (.pint 1) else none⟩

/-- Concrete payload used to exhibit that set() is a merge. -/
def payload9 : PDict :=
  fun k => if k = "b" then some (.pint 2) else none

theorem bucketStep_err {rb : Bucket} {st : StorageT} {bk : String × String}
    {st2 : StorageT} {e : PyErr} (h : bucketStep rb st bk = (st2, some e)) :
    e = .valueError := by
  unfold bucketStep at h
  split at h
  · dsimp only at h
    split at h
    · simp at h
    · split at h
      · simp at h
      · simp at h
        exact h.2.symm
  · simp at h

theorem bucketScan_err {rb : Bucket} :
    ∀ (bks : List (String × String)) (st st2 : StorageT) (e : PyErr),
      bucketScan rb st bks = (st2, some e) → e = .valueError := by
  intro bks
  induction bks with
  | nil =>
    intro st st2 e h
    simp [bucketScan] at h
  | cons bk rest ih =>
    intro st st2 e h
    unfold bucketScan at h
    cases hbs : bucketStep rb st bk with
    | mk s2 e? =>
      rw [hbs] at h
      cases e? with
      | some e2 =>
        simp at h
        exact h.2 ▸ bucketStep_err hbs
      | none =>
        exact ih s2 st2 e h

theorem runBuckets_err :
    ∀ (bs : List Bucket) (st st2 : StorageT) (e : PyErr),
      runBuckets st bs = (st2, some e) → e = .valueError := by
  intro bs
  induction bs with
  | nil =>
    intro st st2 e h
    simp [runBuckets] at h
  | cons rb rest ih =>
    intro st st2 e h
    unfold runBuckets at h
    cases hbs : bucketScan rb st BUCKETS with
    | mk s2 e? =>
      rw [hbs] at h
      cases e? with
      | some e2 =>
        simp at h
        exact h.2 ▸ bucketScan_err BUCKETS st s2 e2 hbs
      | none =>
        exact ih s2 st2 e h

/-- C1: the update gate is broken by mixed clock sources, so the claim that a
second update() within 30 seconds of a successful one is a no-op fails on the
code.  With the local clock one hour ahead of utc (timestamps: local 3600 is
utc 0), a first update() at utc 0 succeeds, stores utcnow() = 0 as
_last_update, and a second call one second later still compares that utc
timestamp against now() - 30 = 3571, so it polls again: two network polls
within one second. -/
theorem update_gate_clock_skew_two_polls :
    (nestUpdate ⟨none, []⟩ 3600 0 (.jsonOk ⟨some []⟩)).1 = .ok ()
    ∧ (nestUpdate ⟨none, []⟩ 3600 0 (.jsonOk ⟨some []⟩)).2.1.last_update = some 0
    ∧ (nestUpdate ⟨none, []⟩ 3600 0 (.jsonOk ⟨some []⟩)).2.2 = 1
    ∧ (nestUpdate ((nestUpdate ⟨none, []⟩ 3600 0 (.jsonOk ⟨some []⟩)).2.1) 3601 1
        (.jsonOk ⟨some []⟩)).2.2 = 1 :=
  ⟨rfl, rfl, rfl, rfl⟩

/-- C2: because Structure.num_thermostats is hard-coded to 0, set_eta and
cancel_eta raise ValueError for every structure, even with a non-None trip id
and begin time; the ETA write is never issued in this snapshot. -/
theorem set_eta_always_value_error (s : NestObj) (trip : String) (b : Int)
    (e : Option Int) (uNow : Int) :
    num_thermostats s = 0
    ∧ set_eta s (.pstr trip) (some b) e = .error .valueError
    ∧ cancel_eta s (.pstr trip) uNow = .error .valueError := by
  refine ⟨rfl, ?_, rfl⟩
  cases e <;> rfl

/-- C3: Nest.post catches RequestException itself and returns None, so
Nest.update can never surface the network exception (its re-raise branch is
dead); instead, on a transport failure the caller observes the TypeError from
subscripting the None response. -/
theorem update_network_failure_yields_type_error :
    (∀ (st : NestState) (l u : Int) (env : PostOutcome),
        isRequestExc (nestUpdate st l u env).1 = false)
    ∧ (nestUpdate ⟨none, []⟩ 0 0 .netError).1 = .error .typeError := by
  constructor
  · intro st l u env
    unfold nestUpdate
    split
    · rfl
    · cases env with
      | netError => rfl
      | badJson => rfl
      | jsonOk resp =>
        cases hub : resp.updated_buckets with
        | none => simp [post, hub, isRequestExc]
        | some buckets =>
          cases hrb : runBuckets st.storage buckets with
          | mk st2 e? =>
            cases e? with
            | none => simp [post, hub, hrb, isRequestExc]
            | some e2 =>
              have he : e2 = .valueError := runBuckets_err buckets st.storage st2 e2 hrb
              simp [post, hub, hrb, isRequestExc, he]
  · rfl

/-- C4: _round_temp on the Celsius scale equals round(t * 2) / 2 and on the
Fahrenheit scale equals round(t), and the target setter applies _round_temp
to every written value, both for the heat-cool low/high pair and for the
single target. -/
theorem round_temp_and_target_setter_rounding (o : NestObj) (t low high : ℚ) :
    round_temp (.pstr "C") t = (pyRound (t * 2) : ℚ) / 2
    ∧ round_temp (.pstr "F") t = (pyRound t : ℚ)
    ∧ targetSet o (.pair low high) =
        (if (o.data "target_temperature_type").getD .pnone = .pstr "heat-cool" then
           .ok [("target_temperature_low",
                  round_temp ((o.data "temperature_scale").getD .pnone) low),
                ("target_temperature_high",
                  round_temp ((o.data "temperature_scale").getD .pnone) high)]
         else .error .typeError)
    ∧ targetSet o (.single t) =
        (if (o.data "target_temperature_type").getD .pnone = .pstr "heat-cool" then
           .error .typeError
         else .ok [("target_temperature",
                  round_temp ((o.data "temperature_scale").getD .pnone) t)]) := by
  refine ⟨by simp [round_temp], by simp [round_temp], ?_, ?_⟩ <;>
    unfold targetSet <;>
    by_cases hm : (o.data "target_temperature_type").getD .pnone = .pstr "heat-cool" <;>
    simp [hm]

/-- C5: if any of the three auth steps fails (transport error, JSON failure,
or missing field), ga_auth.initialize returns that error and the shared
session state is left exactly as it was: no field is written, so the session
is never partially populated. -/
theorem auth_failure_leaves_session_unchanged (env : AuthEnv) (s : SessionData)
    (e : PyErr) (h : (initializeAuth env s).1 = .error e) :
    (initializeAuth env s).2 = s := by
  unfold initializeAuth at h ⊢
  cases h1 : get_google_access_token env.issueTokenResp with
  | error e1 => simp [h1]
  | ok gat =>
    cases h2 : get_jwt env.jwtResp gat with
    | error e2 => simp [h1, h2]
    | ok jwt =>
      cases h3 : get_token env.sessionResp jwt with
      | error e3 => simp [h1, h2, h3]
      | ok tu => simp [h1, h2, h3] at h

/-- Witness for C5 at a concrete input: the issue-token response decodes but
lacks access_token, the sequence fails with KeyError there, and the session
state stays empty. -/
theorem auth_failure_leaves_session_unchanged_w :
    (initializeAuth
        ⟨.jsonBody none, .jsonBody (some "j"), .jsonBody (some ⟨some "t"⟩) (some "u")⟩
        ⟨none, none, none⟩).2 = ⟨none, none, none⟩ :=
  auth_failure_leaves_session_unchanged _ _ .keyError rfl

/-- C6: processing a received bucket with object_key "device.abc123" against
the BUCKETS table stores exactly one wrapper object, of class Thermostat,
under type "thermostat" with id "abc123" and the bucket's payload. -/
theorem bucket_decode_device_key_creates_thermostat (d : PDict) :
    runBuckets [] [⟨"device.abc123", d⟩] =
      ([(("thermostat", "abc123"), ⟨"abc123", .thermostatCls, d⟩)], none) :=
  rfl

/-- C7 counterexample: at the cited call site (NestSensorDevice.update), when
update() fails with KeyError the call site performs exactly one update poll
and zero re-authentication runs and the KeyError propagates: there is no
bounded retry, contradicting the claimed 5-attempt re-auth loop. -/
theorem sensor_update_no_retry_on_key_error :
    sensorDeviceUpdate ⟨none, []⟩ 0 0 (.jsonOk ⟨none⟩) =
      (.error .keyError, ⟨none, []⟩, 1, 0) :=
  rfl

/-- C7 amended: NestSensorDevice.update simply forwards to Nest.update: it
runs no auth sequence, performs the same single poll, returns the same
outcome (a KeyError propagates unchanged), and leaves the same state. -/
theorem sensor_update_single_call_no_reauth (st : NestState) (l u : Int)
    (env : PostOutcome) :
    (sensorDeviceUpdate st l u env).2.2.2 = 0
    ∧ (sensorDeviceUpdate st l u env).1 = (nestUpdate st l u env).1
    ∧ (sensorDeviceUpdate st l u env).2.2.1 = (nestUpdate st l u env).2.2
    ∧ (sensorDeviceUpdate st l u env).2.1 = (nestUpdate st l u env).2.1 :=
  ⟨rfl, rfl, rfl, rfl⟩

/-- C8: NestBase.set is idempotent: merging the same payload twice leaves the
wrapper object in the same state as merging it once. -/
theorem nest_set_idempotent (o : NestObj) (p : PDict) :
    nestSet (nestSet o p) p = nestSet o p := by
  have h : dict_update (dict_update o.data p) p = dict_update o.data p := by
    funext k
    unfold dict_update
    cases p k <;> rfl
  have h2 : nestSet (nestSet o p) p =
      ⟨o.id, o.cls, dict_update (dict_update o.data p) p⟩ := rfl
  rw [h2, h]
  rfl

/-- C9 counterexample: set() is a shallow key-by-key merge, not a wholesale
replacement: merging a payload that lacks key "a" keeps the old value of
"a", whereas the wholesale replacement described by the spec would drop it. -/
theorem nest_set_not_wholesale_replace :
    (nestSet obj9 payload9).data "a" = some (.pint 1)
    ∧ (setWholesale obj9 payload9).data "a" = none
    ∧ (((nestSet obj9 payload9).data "a") == ((setWholesale obj9 payload9).data "a")) = false :=
  ⟨rfl, rfl, rfl⟩

/-- C9 amended: across any sequence of set() merges the id and serial stay
the initial id, and each merge updates the data key-by-key: a key present in
the payload takes the payload's value, a key absent from the payload keeps
its previous value (shallow overwrite, not wholesale replacement). -/
theorem nest_set_id_immutable_and_merge (o : NestObj) (ps : List PDict)
    (p : PDict) (k : String) :
    (List.foldl nestSet o ps).id = o.id
    ∧ serial (List.foldl nestSet o ps) = o.id
    ∧ (nestSet o p).data k = (match p k with | some v => some v | none => o.data k) := by
  have hid : ∀ (qs : List PDict) (x : NestObj), (List.foldl nestSet x qs).id = x.id := by
    intro qs
    induction qs with
    | nil => intro x; rfl
    | cons q rest ih =>
      intro x
      simpa [List.foldl] using ih (nestSet x q)
  exact ⟨hid ps o, hid ps o, rfl⟩

/-- C10: FAN_MAP.get(value, False) always yields a bool (never None), so the
ValueError branch of the Thermostat.fan setter is unreachable and the setter
always issues the write with that bool. -/
theorem fan_setter_never_raises (v : PVal) :
    (∃ b : Bool, dictGet FAN_MAP v (.pbool false) = .pbool b)
    ∧ fanSetter v =
        .ok ⟨"devices/thermostats", [("fan_timer_active", dictGet FAN_MAP v (.pbool false))]⟩ := by
  have hb : ∃ b : Bool, dictGet FAN_MAP v (.pbool false) = .pbool b := by
    unfold dictGet
    cases hf : FAN_MAP.find? (fun kv => pyEq kv.1 v) with
    | none => exact ⟨false, rfl⟩
    | some kv =>
      have hmem : kv ∈ FAN_MAP := List.mem_of_find?_eq_some hf
      have hall : FAN_MAP.all (fun kv2 => isPBool kv2.2) = true := by decide
      have hkv := (List.all_eq_true.mp hall) kv hmem
      cases hv : kv.2 with
      | pbool b => exact ⟨b, hv⟩
      | pnone => rw [hv] at hkv; simp [isPBool] at hkv
      | pint n => rw [hv] at hkv; simp [isPBool] at hkv
      | pstr s => rw [hv] at hkv; simp [isPBool] at hkv
  refine ⟨hb, ?_⟩
  obtain ⟨b, hbv⟩ := hb
  unfold fanSetter
  rw [hbv]
  simp

end Nestga
